import Mathlib

/-!
# Verification of the libdshowcapture device/pin resolution core

Shallow embedding of `src/source/dshow-base.cpp` (namespace `DShow`).

Platform objects (pins, filters, monikers) are modelled as records whose
fields hold the results of the platform queries the code issues:
a field of type `Option _` is `none` exactly when the corresponding
query fails.  Out-parameters are modelled by explicit state passing:
a function taking `IPin **pin` takes the caller's current variable
content and returns the (possibly updated) content alongside the
boolean result, so that "the function did not write to the out
parameter" is expressible.  GUIDs and wide strings are modelled as
`Nat` and `String`; `wcscmp(a,b) == 0` is string equality and
`memcmp` over `REGPINMEDIUM` is field-wise equality (the struct is
three integral fields with no padding).
-/

namespace DShow

/-- GUIDs are opaque values compared only for equality. -/
abbrev GUID := Nat

/-- Wide strings; `wcscmp(a, b) == 0` is exact (case-sensitive) equality. -/
abbrev WString := String

/-- The all-zero GUID sentinel `GUID_NULL`. -/
def GUID_NULL : GUID := 0

/-- The `KSMEDIUMSETID_Standard` sentinel GUID (distinct from `GUID_NULL`). -/
def KSMEDIUMSETID_Standard : GUID := 1

/-- `PIN_DIRECTION`: a pin is an input or an output pin. -/
inductive PIN_DIRECTION where
  | input
  | output
deriving DecidableEq, Repr

/-- `REGPINMEDIUM`: class GUID plus two instance numbers; `memcmp`
equality is equality of all three fields. -/
structure REGPINMEDIUM where
  clsMedium : GUID
  dw1 : Nat
  dw2 : Nat
deriving DecidableEq, Repr

/-- The value `memset(&medium, 0, sizeof(medium))` stores: all fields zero
(the all-zero GUID is `GUID_NULL`). -/
def zeroMedium : REGPINMEDIUM := ⟨GUID_NULL, 0, 0⟩

/-- Result of `GetPinCategory` (an HRESULT plus out category), as consumed by
`PinIsCategory`: success with the pin's category GUID, `E_NOINTERFACE`
(the pin does not expose `IKsPropertySet`), or any other failure of
`propertySet->Get`. -/
inductive CategoryResult where
  | ok (category : GUID)
  | eNoInterface
  | otherFailure
deriving DecidableEq, Repr

/-- A pin, as the code observes it through platform queries.
`pid` models object identity (the interface pointer value). -/
structure Pin where
  pid : Nat
  /-- `IAMStreamConfig` capability list: `none` if `QueryInterface` or
  `GetNumberOfCapabilities` fails; otherwise one entry per capability
  index `i`, holding the major type when `GetStreamCaps(i, ...)`
  succeeds and `none` when it fails. -/
  configCaps : Option (List (Option GUID))
  /-- `EnumMediaTypes` stream: `none` if `EnumMediaTypes` fails; otherwise
  the sequence of media-type major types `Next` yields (empty when the
  first `Next` does not return `S_OK`). -/
  mediaTypes : Option (List GUID)
  /-- `QueryDirection` result: `none` when the query fails. -/
  direction : Option PIN_DIRECTION
  /-- Category property query result (see `CategoryResult`). -/
  category : CategoryResult
  /-- `QueryPinInfo` result: `none` when the query fails, otherwise the
  pin's display name `achName`. -/
  pinInfo : Option WString
  /-- `IKsPin::KsQueryMediums` result: `none` when the pin is not an
  `IKsPin` or the query fails; otherwise the raw medium list the
  driver reports (`items->Count` entries). -/
  ksMediums : Option (List REGPINMEDIUM)
deriving DecidableEq, Repr

/-- A filter, as the pin walkers observe it.  `fid` models object identity
(the interface pointer value); `pins` is the `EnumPins` stream, `none`
when `EnumPins` fails. -/
structure Filter where
  fid : Nat
  pins : Option (List Pin)
deriving DecidableEq, Repr

/-! ## Predicate layer -/

/-- `PinConfigHasMajorType`: checks whether a pin's config caps have the
given major media type.  False when the `IAMStreamConfig` query or
`GetNumberOfCapabilities` fails; otherwise scans all capability
entries, skipping indices where `GetStreamCaps` fails, and succeeds
on the first entry whose `majortype` equals `type`. -/
def PinConfigHasMajorType (pin : Pin) (type : GUID) : Bool :=
  match pin.configCaps with
  | none => false
  | some caps =>
    caps.any fun mt =>
      match mt with
      | some majortype => majortype == type
      | none => false

/-- `PinHasMajorType`: first checks the config caps; failing that, checks
whether the first media type `EnumMediaTypes`/`Next` offers has the
given major type. -/
def PinHasMajorType (pin : Pin) (type : GUID) : Bool :=
  if PinConfigHasMajorType pin type then
    true
  else
    match pin.mediaTypes with
    | none => false
    | some [] => false
    | some (majortype :: _) => majortype == type

/-- `PinIsDirection`: a null pin never matches; otherwise true iff
`QueryDirection` succeeds and reports the requested direction. -/
def PinIsDirection : Option Pin → PIN_DIRECTION → Bool
  | none, _ => false
  | some pin, dir =>
    match pin.direction with
    | none => false
    | some pinDir => pinDir == dir

/-- `GetPinCategory`: `E_POINTER` for a null pin (folded into
`CategoryResult.otherFailure`: `PinIsCategory` never passes a null pin),
otherwise the pin's category query result. -/
def GetPinCategory : Option Pin → CategoryResult
  | none => CategoryResult.otherFailure
  | some pin => pin.category

/-- `PinIsCategory`: a null pin never matches.  If the category query
fails, true exactly when the failure is `E_NOINTERFACE` (the pin has
no category interface: chances are the code created it); otherwise
true iff the requested category equals the pin's category. -/
def PinIsCategory : Option Pin → GUID → Bool
  | none, _ => false
  | some pin, category =>
    match GetPinCategory (some pin) with
    | CategoryResult.ok pinCategory => category == pinCategory
    | CategoryResult.eNoInterface => true
    | CategoryResult.otherFailure => false

/-- `PinNameIs`: a null pin never matches; a null (unset) name always
matches; otherwise true iff `QueryPinInfo` succeeds and the reported
`achName` equals `name` exactly. -/
def PinNameIs : Option Pin → Option WString → Bool
  | none, _ => false
  | some _, none => true
  | some pin, some name =>
    match pin.pinInfo with
    | none => false
    | some achName => name == achName

/-- `PinMatches`: major type, then direction, then category, each
short-circuiting on failure. -/
def PinMatches (pin : Pin) (type : GUID) (category : GUID)
    (dir : PIN_DIRECTION) : Bool :=
  if !PinHasMajorType pin type then false
  else if !PinIsDirection (some pin) dir then false
  else if !PinIsCategory (some pin) category then false
  else true

/-! ## Pin walkers -/

/-- The `while (pinsEnum->Next(1, &curPin, &num) == S_OK)` loop of
`GetFilterPin`: first pin satisfying `PinMatches`. -/
def findMatchingPin (pins : List Pin) (type : GUID) (category : GUID)
    (dir : PIN_DIRECTION) : Option Pin :=
  match pins with
  | [] => none
  | curPin :: rest =>
    if PinMatches curPin type category dir then some curPin
    else findMatchingPin rest type category dir

/-- `GetFilterPin(filter, type, category, dir, pin)`: false for a null
filter or when `EnumPins` fails; otherwise walks the pins and, at the
first pin satisfying `PinMatches`, writes it to the out parameter and
returns true.  `out` is the caller's `*pin` content, written only on
success. -/
def GetFilterPin (filter : Option Filter) (type : GUID) (category : GUID)
    (dir : PIN_DIRECTION) (out : Option Pin) : Bool × Option Pin :=
  match filter with
  | none => (false, out)
  | some f =>
    match f.pins with
    | none => (false, out)
    | some pins =>
      match findMatchingPin pins type category dir with
      | some curPin => (true, some curPin)
      | none => (false, out)

/-- The enumeration loop of `GetPinByName`: first pin with the requested
direction and name. -/
def findPinByName (pins : List Pin) (dir : PIN_DIRECTION)
    (name : Option WString) : Option Pin :=
  match pins with
  | [] => none
  | curPin :: rest =>
    if PinIsDirection (some curPin) dir && PinNameIs (some curPin) name then
      some curPin
    else findPinByName rest dir name

/-- `GetPinByName(filter, dir, name, pin)`: false for a null filter or
when `EnumPins` fails; otherwise the first pin with the requested
direction and name, written to the out parameter only on success. -/
def GetPinByName (filter : Option Filter) (dir : PIN_DIRECTION)
    (name : Option WString) (out : Option Pin) : Bool × Option Pin :=
  match filter with
  | none => (false, out)
  | some f =>
    match f.pins with
    | none => (false, out)
    | some pins =>
      match findPinByName pins dir name with
      | some curPin => (true, some curPin)
      | none => (false, out)

/-! ## Medium extractor -/

/-- The scan loop of `GetPinMedium`: first entry whose class GUID is
neither `GUID_NULL` nor `KSMEDIUMSETID_Standard`. -/
def scanMediums (items : List REGPINMEDIUM) : Option REGPINMEDIUM :=
  match items with
  | [] => none
  | curMed :: rest =>
    if !(curMed.clsMedium == GUID_NULL) &&
        !(curMed.clsMedium == KSMEDIUMSETID_Standard) then
      some curMed
    else scanMediums rest

/-- `GetPinMedium(pin, medium)`: false when the pin is not an `IKsPin` or
`KsQueryMediums` fails, leaving the out parameter untouched; otherwise
writes the first non-sentinel medium and returns true, or zeroes the
out parameter and returns false when every entry is a sentinel.
`out` is the caller's `medium` content. -/
def GetPinMedium (pin : Pin) (out : REGPINMEDIUM) : Bool × REGPINMEDIUM :=
  match pin.ksMediums with
  | none => (false, out)
  | some items =>
    match scanMediums items with
    | some curMed => (true, curMed)
    | none => (false, zeroMedium)

/-- The enumeration loop of `GetPinByMedium`: first pin whose extracted
medium equals `medium`.  In the source `curMedium` is an uninitialized
stack local; it is only read when `GetPinMedium` returned true, in
which case its value does not depend on the initial content, so the
model passes `zeroMedium` as the initial content. -/
def findPinByMedium (pins : List Pin) (medium : REGPINMEDIUM) : Option Pin :=
  match pins with
  | [] => none
  | curPin :: rest =>
    let r := GetPinMedium curPin zeroMedium
    if r.1 && medium == r.2 then some curPin
    else findPinByMedium rest medium

/-- `GetPinByMedium(filter, medium, pin)`: false for a null filter or when
`EnumPins` fails; otherwise the first pin whose extracted medium equals
`medium` (by `memcmp`), written to the out parameter only on success. -/
def GetPinByMedium (filter : Option Filter) (medium : REGPINMEDIUM)
    (out : Option Pin) : Bool × Option Pin :=
  match filter with
  | none => (false, out)
  | some f =>
    match f.pins with
    | none => (false, out)
    | some pins =>
      match findPinByMedium pins medium with
      | some curPin => (true, some curPin)
      | none => (false, out)

/-! ## Medium cross-reference resolver -/

/-- A moniker: `bound` is the filter `BindToObject` instantiates, `none`
when instantiation fails. -/
structure Moniker where
  bound : Option Filter
deriving DecidableEq, Repr

/-- `GetFilterByMediumFromMoniker(moniker, medium, filter)`: binds the
moniker; on instantiation failure logs a warning and returns false
(the out parameter untouched).  On success, runs `GetPinByMedium` on
the instantiated filter and, when a pin matches, writes the filter to
the out parameter and returns true. -/
def GetFilterByMediumFromMoniker (moniker : Moniker) (medium : REGPINMEDIUM)
    (out : Option Filter) : Bool × Option Filter :=
  match moniker.bound with
  | none => (false, out)
  | some curFilter =>
    let r := GetPinByMedium (some curFilter) medium none
    if r.1 then (true, some curFilter)
    else (false, out)

/-- How the class enumeration of `GetFilterByMedium` can go: creating the
device enumerator (`CoCreateInstance`) fails, creating the class
enumerator (`CreateClassEnumerator`) fails, or a moniker sequence is
obtained. -/
inductive ClassEnumResult where
  | devEnumFailed
  | classEnumFailed
  | monikers (ms : List Moniker)
deriving DecidableEq, Repr

/-- The `while (enumMoniker->Next(1, &moniker, &count) == S_OK)` loop of
`GetFilterByMedium`. -/
def findFilterByMedium (ms : List Moniker) (medium : REGPINMEDIUM)
    (out : Option Filter) : Bool × Option Filter :=
  match ms with
  | [] => (false, out)
  | moniker :: rest =>
    let r := GetFilterByMediumFromMoniker moniker medium out
    if r.1 then r
    else findFilterByMedium rest medium r.2

/-- `GetFilterByMedium(id, medium, filter)`: false when either enumerator
cannot be created; otherwise visits each moniker in order, returning
the first instantiated filter with a pin whose extracted medium equals
`medium`, and false after exhausting all monikers. -/
def GetFilterByMedium (enum : ClassEnumResult) (medium : REGPINMEDIUM)
    (out : Option Filter) : Bool × Option Filter :=
  match enum with
  | ClassEnumResult.devEnumFailed => (false, out)
  | ClassEnumResult.classEnumFailed => (false, out)
  | ClassEnumResult.monikers ms => findFilterByMedium ms medium out

/-! ## Filter resolver -/

/-- One candidate the external device enumerator visits: the candidate
filter, its friendly name, and its device path (which the platform may
report as null). -/
structure DeviceCandidate where
  filter : Filter
  name : WString
  path : Option WString
deriving DecidableEq, Repr

/-- The `DeviceFilterCallbackInfo` struct: the tentative result filter
(a `CComPtr`, initially null) and the requested name and path
criteria (null when unset). -/
structure DeviceFilterCallbackInfo where
  filter : Option Filter
  name : Option WString
  path : Option WString
deriving DecidableEq, Repr

/-- `GetDeviceCallback(info, filter, name, path)`: if the name criterion
is set and the candidate's name differs, continue (true) without
recording.  Otherwise record the candidate as the tentative result;
then continue if the candidate's path is null, the path criterion is
unset, or the paths differ — stop (false) only on a full name+path
match. -/
def GetDeviceCallback (info : DeviceFilterCallbackInfo) (filter : Filter)
    (name : WString) (path : Option WString) :
    DeviceFilterCallbackInfo × Bool :=
  if (match info.name with
      | some infoName => name != infoName
      | none => false) then
    (info, true)
  else
    let info' := { info with filter := some filter }
    match path, info'.path with
    | some p, some infoPath =>
      if p != infoPath then (info', true) else (info', false)
    | _, _ => (info', true)

/-- Modelled from the spec: `EnumDevices` (declared in `dshow-enum.hpp`,
implementation not in `src/`) "visits every registered device of that
class in platform-defined order, stopping early if the visitor returns
stop" (§6).  The candidates stand for the registered devices of the
requested class in visiting order; enumeration itself is assumed to
succeed (its own failure makes `GetDeviceFilter` return false without
consulting `info`, a path outside the claims). -/
def EnumDevices (candidates : List DeviceCandidate)
    (info : DeviceFilterCallbackInfo) : DeviceFilterCallbackInfo :=
  match candidates with
  | [] => info
  | c :: rest =>
    let r := GetDeviceCallback info c.filter c.name c.path
    if r.2 then EnumDevices rest r.1 else r.1

/-- `GetDeviceFilter(type, name, path, out)`: runs the enumeration with
`GetDeviceCallback` over fresh info and, when a filter was recorded,
detaches it to the caller.  `some f` models `*out = f; return true`,
`none` models `return false`. -/
def GetDeviceFilter (candidates : List DeviceCandidate)
    (name : Option WString) (path : Option WString) : Option Filter :=
  let info : DeviceFilterCallbackInfo :=
    { filter := none, name := name, path := path }
  (EnumDevices candidates info).filter

/-! ## Specification-side definitions

These follow the spec's words (as amended where the code disagrees) and
are compared against the source-derived definitions above. -/

/-- A candidate matches the name criterion: the criterion is unset, or the
candidate's friendly name equals it exactly. -/
def CandidateNameMatches (name : Option WString) (c : DeviceCandidate) : Bool :=
  match name with
  | none => true
  | some n => c.name == n

/-- A candidate matches both criteria fully: its name matches and both its
(non-null) path and the path criterion are set and equal. -/
def CandidateFullMatches (name path : Option WString)
    (c : DeviceCandidate) : Bool :=
  CandidateNameMatches name c &&
  (match c.path, path with
   | some p, some infoPath => p == infoPath
   | _, _ => false)

/-- Specification of the filter resolver with the stop rule as the code
implements it: the first candidate matching both a set name and a set
path (with a non-null candidate path) is returned and stops the
traversal; a candidate matching only the name criterion does not stop
the traversal but is kept as tentative result, so absent any full
match the last name-matching candidate is returned; not-found results
only when no candidate matched the name criterion. -/
def ResolveDeviceFilterSpec (candidates : List DeviceCandidate)
    (name path : Option WString) : Option Filter :=
  match candidates with
  | [] => none
  | c :: rest =>
    if CandidateFullMatches name path c then some c.filter
    else if CandidateNameMatches name c then
      match ResolveDeviceFilterSpec rest name path with
      | some f => some f
      | none => some c.filter
    else ResolveDeviceFilterSpec rest name path

/-- A moniker is a match for `medium`: it instantiates successfully and
the instantiated filter has a pin whose extracted medium equals
`medium`. -/
def MonikerMatches (moniker : Moniker) (medium : REGPINMEDIUM) : Bool :=
  match moniker.bound with
  | none => false
  | some f => (GetPinByMedium (some f) medium none).1

/-! ## Sample data for concrete evaluations -/

/-- A pin whose capability list carries major type 5, with output
direction and no category interface: satisfies `PinMatches` for type 5,
any category, output direction. -/
def samplePinMatch : Pin :=
  ⟨10, some [some 5], none, some PIN_DIRECTION.output,
    CategoryResult.eNoInterface, some "Out", none⟩

/-- A pin on which every query fails: satisfies no predicate. -/
def samplePinNoMatch : Pin :=
  ⟨11, none, none, none, CategoryResult.otherFailure, none, none⟩

/-- An input-direction pin that carries major type 5. -/
def samplePinInput : Pin :=
  ⟨12, some [some 5], none, some PIN_DIRECTION.input,
    CategoryResult.eNoInterface, some "In", none⟩

/-- A pin whose driver-reported medium list holds the single real medium
`⟨2, 8, 9⟩`. -/
def sampleMediumPin : Pin :=
  ⟨13, none, none, none, CategoryResult.otherFailure, none,
    some [⟨2, 8, 9⟩]⟩

/-- A filter exposing `sampleMediumPin`. -/
def sampleMediumFilter : Filter := ⟨20, some [sampleMediumPin]⟩

/-! ## Helper lemmas -/

/-- A successful medium scan yields the first non-sentinel entry: the list
splits as `pre ++ m :: post` with every entry of `pre` a sentinel and
`m` not a sentinel. -/
theorem scanMediums_eq_some (items : List REGPINMEDIUM) (m : REGPINMEDIUM)
    (h : scanMediums items = some m) :
    ∃ pre post, items = pre ++ m :: post ∧
      m.clsMedium ≠ GUID_NULL ∧ m.clsMedium ≠ KSMEDIUMSETID_Standard ∧
      ∀ x ∈ pre, x.clsMedium = GUID_NULL ∨
        x.clsMedium = KSMEDIUMSETID_Standard := by
  induction items with
  | nil => simp [scanMediums] at h
  | cons a rest ih =>
    rw [scanMediums] at h
    by_cases ha : (!(a.clsMedium == GUID_NULL) &&
        !(a.clsMedium == KSMEDIUMSETID_Standard)) = true
    · rw [if_pos ha] at h
      obtain rfl : a = m := by injection h
      simp only [Bool.and_eq_true, Bool.not_eq_true', beq_eq_false_iff_ne] at ha
      exact ⟨[], rest, rfl, ha.1, ha.2, by simp⟩
    · rw [if_neg ha] at h
      obtain ⟨pre, post, hsplit, h1, h2, hpre⟩ := ih h
      refine ⟨a :: pre, post, by rw [hsplit]; rfl, h1, h2, ?_⟩
      intro x hx
      rcases List.mem_cons.mp hx with rfl | hx
      · simp only [Bool.and_eq_true, Bool.not_eq_true', beq_iff_eq,
          not_and_or, Bool.not_eq_true, beq_eq_false_iff_ne,
          not_not] at ha
        rcases ha with ha | ha
        · left; by_contra hc
          exact absurd ha (by simp [hc])
        · right; by_contra hc
          exact absurd ha (by simp [hc])
      · exact hpre x hx

/-- When some entry is not a sentinel, the medium scan finds something. -/
theorem scanMediums_ne_none (items : List REGPINMEDIUM) (x : REGPINMEDIUM)
    (hx : x ∈ items) (h1 : x.clsMedium ≠ GUID_NULL)
    (h2 : x.clsMedium ≠ KSMEDIUMSETID_Standard) :
    scanMediums items ≠ none := by
  induction items with
  | nil => cases hx
  | cons a rest ih =>
    rw [scanMediums]
    by_cases ha : (!(a.clsMedium == GUID_NULL) &&
        !(a.clsMedium == KSMEDIUMSETID_Standard)) = true
    · rw [if_pos ha]; simp
    · rw [if_neg ha]
      rcases List.mem_cons.mp hx with rfl | hx'
      · exact absurd (by simp [h1, h2]) ha
      · exact ih hx'

/-- When every entry is a sentinel, the medium scan finds nothing. -/
theorem scanMediums_eq_none (items : List REGPINMEDIUM)
    (h : ∀ x ∈ items, x.clsMedium = GUID_NULL ∨
      x.clsMedium = KSMEDIUMSETID_Standard) :
    scanMediums items = none := by
  induction items with
  | nil => rfl
  | cons a rest ih =>
    rw [scanMediums]
    have ha : (!(a.clsMedium == GUID_NULL) &&
        !(a.clsMedium == KSMEDIUMSETID_Standard)) = false := by
      rcases h a (List.mem_cons_self a rest) with ha | ha <;>
        simp [ha, GUID_NULL, KSMEDIUMSETID_Standard]
    rw [ha]
    exact ih fun x hx => h x (List.mem_cons_of_mem a hx)

/-! ## Claim theorems -/

/-- C3: for every pin whose stream-configuration capability list is
available and contains an entry with major type `type`,
`PinHasMajorType` returns true — whatever the pin's currently offered
media types are (the pin is arbitrary elsewhere), because the
capability-list check runs first and takes precedence over the
fallback check of the first offered media type. -/
theorem pinHasMajorType_of_configCaps_mem (pin : Pin) (type : GUID)
    (caps : List (Option GUID)) (hcaps : pin.configCaps = some caps)
    (hmem : some type ∈ caps) :
    PinHasMajorType pin type = true := by
  have hconf : PinConfigHasMajorType pin type = true := by
    rw [PinConfigHasMajorType, hcaps]
    exact List.any_eq_true.mpr ⟨some type, hmem, by simp⟩
  rw [PinHasMajorType, if_pos hconf]

/-- Witness for C3: a pin whose capability list contains major type 5 but
whose first (and only) offered media type is 7 still has major type
5. -/
theorem pinHasMajorType_of_configCaps_mem_witness :
    PinHasMajorType
      ⟨0, some [none, some 5], some [7], some PIN_DIRECTION.output,
        CategoryResult.ok 3, some "cap", none⟩ 5 = true :=
  pinHasMajorType_of_configCaps_mem
    ⟨0, some [none, some 5], some [7], some PIN_DIRECTION.output,
      CategoryResult.ok 3, some "cap", none⟩ 5 [none, some 5] rfl (by decide)

/-- C4: a pin whose category query reports `E_NOINTERFACE` (it exposes no
category property at all) matches every requested category
automatically; a pin whose category query succeeds matches exactly the
requested category equal to its own. -/
theorem pinIsCategory_spec (pin : Pin) (category : GUID) :
    (pin.category = CategoryResult.eNoInterface →
      PinIsCategory (some pin) category = true) ∧
    (∀ g, pin.category = CategoryResult.ok g →
      (PinIsCategory (some pin) category = true ↔ category = g)) := by
  constructor
  · intro h
    simp [PinIsCategory, GetPinCategory, h]
  · intro g h
    simp [PinIsCategory, GetPinCategory, h]

/-- Witness for C4: a pin with no category interface matches category 9;
a pin with category 4 matches category 4 and not category 9. -/
theorem pinIsCategory_spec_witness :
    PinIsCategory
      (some ⟨0, none, none, none, CategoryResult.eNoInterface, none, none⟩)
      9 = true ∧
    (PinIsCategory
      (some ⟨1, none, none, none, CategoryResult.ok 4, none, none⟩)
      4 = true ↔ (4 : GUID) = 4) ∧
    (PinIsCategory
      (some ⟨1, none, none, none, CategoryResult.ok 4, none, none⟩)
      9 = true ↔ (9 : GUID) = 4) :=
  ⟨(pinIsCategory_spec
      ⟨0, none, none, none, CategoryResult.eNoInterface, none, none⟩ 9).1 rfl,
   (pinIsCategory_spec
      ⟨1, none, none, none, CategoryResult.ok 4, none, none⟩ 4).2 4 rfl,
   (pinIsCategory_spec
      ⟨1, none, none, none, CategoryResult.ok 4, none, none⟩ 9).2 4 rfl⟩

/-- C5: `PinNameIs` on a (non-null) pin is true when the name criterion is
unset, and with a set name it is true exactly when the pin's queried
display name equals the requested name (in particular the name query
must succeed). -/
theorem pinNameIs_spec (pin : Pin) (n : WString) :
    PinNameIs (some pin) none = true ∧
    (PinNameIs (some pin) (some n) = true ↔ pin.pinInfo = some n) := by
  refine ⟨rfl, ?_⟩
  cases h : pin.pinInfo with
  | none => simp [PinNameIs, h]
  | some achName =>
    simp only [PinNameIs, h, beq_iff_eq, Option.some.injEq]
    exact eq_comm

/-- Witness for C5: a pin named "Capture" matches an unset name criterion
and the exact name "Capture". -/
theorem pinNameIs_spec_witness :
    PinNameIs
      (some ⟨0, none, none, none, CategoryResult.eNoInterface,
        some "Capture", none⟩) none = true ∧
    (PinNameIs
      (some ⟨0, none, none, none, CategoryResult.eNoInterface,
        some "Capture", none⟩) (some "Capture") = true ↔
      (some "Capture" : Option WString) = some "Capture") :=
  ⟨(pinNameIs_spec
      ⟨0, none, none, none, CategoryResult.eNoInterface,
        some "Capture", none⟩ "Capture").1,
   (pinNameIs_spec
      ⟨0, none, none, none, CategoryResult.eNoInterface,
        some "Capture", none⟩ "Capture").2⟩

/-- C6: when the driver reports a medium list, a successful `GetPinMedium`
result is the first entry whose class GUID is neither sentinel — in
particular never a sentinel entry, sentinels in the raw list
notwithstanding — and when every entry is a sentinel the call reports
failure rather than a match. -/
theorem getPinMedium_first_non_sentinel (pin : Pin) (out m : REGPINMEDIUM)
    (items : List REGPINMEDIUM) (hitems : pin.ksMediums = some items) :
    (GetPinMedium pin out = (true, m) →
      ∃ pre post, items = pre ++ m :: post ∧
        m.clsMedium ≠ GUID_NULL ∧ m.clsMedium ≠ KSMEDIUMSETID_Standard ∧
        ∀ x ∈ pre, x.clsMedium = GUID_NULL ∨
          x.clsMedium = KSMEDIUMSETID_Standard) ∧
    ((∀ x ∈ items, x.clsMedium = GUID_NULL ∨
        x.clsMedium = KSMEDIUMSETID_Standard) →
      (GetPinMedium pin out).1 = false) ∧
    (∀ x ∈ items, x.clsMedium ≠ GUID_NULL →
      x.clsMedium ≠ KSMEDIUMSETID_Standard →
      (GetPinMedium pin out).1 = true) := by
  have hGP : GetPinMedium pin out =
      (match scanMediums items with
       | some curMed => (true, curMed)
       | none => (false, zeroMedium)) := by
    unfold GetPinMedium
    rw [hitems]
  constructor
  · intro h
    rw [hGP] at h
    cases hscan : scanMediums items with
    | none => rw [hscan] at h; exact absurd (congrArg Prod.fst h) (by simp)
    | some curMed =>
      rw [hscan] at h
      injection h with h1 h2
      subst h2
      exact scanMediums_eq_some items curMed hscan
  · constructor
    · intro hall
      rw [hGP, scanMediums_eq_none items hall]
    · intro x hx h1 h2
      rw [hGP]
      cases hscan : scanMediums items with
      | none => exact absurd hscan (scanMediums_ne_none items x hx h1 h2)
      | some curMed => rfl

/-- Witness for C6: a list starting with both sentinels yields the first
real medium `⟨2, 8, 9⟩` (and a success result), and an all-sentinel
list yields failure. -/
theorem getPinMedium_first_non_sentinel_witness :
    (∃ pre post,
      [(⟨GUID_NULL, 0, 0⟩ : REGPINMEDIUM), ⟨KSMEDIUMSETID_Standard, 1, 2⟩,
          ⟨2, 8, 9⟩] = pre ++ (⟨2, 8, 9⟩ : REGPINMEDIUM) :: post ∧
        (⟨2, 8, 9⟩ : REGPINMEDIUM).clsMedium ≠ GUID_NULL ∧
        (⟨2, 8, 9⟩ : REGPINMEDIUM).clsMedium ≠ KSMEDIUMSETID_Standard ∧
        ∀ x ∈ pre, x.clsMedium = GUID_NULL ∨
          x.clsMedium = KSMEDIUMSETID_Standard) ∧
    (GetPinMedium
      ⟨0, none, none, none, CategoryResult.eNoInterface, none,
        some [⟨GUID_NULL, 0, 0⟩, ⟨KSMEDIUMSETID_Standard, 1, 2⟩,
          ⟨2, 8, 9⟩]⟩ zeroMedium).1 = true ∧
    (GetPinMedium
      ⟨1, none, none, none, CategoryResult.eNoInterface, none,
        some [⟨GUID_NULL, 0, 0⟩, ⟨KSMEDIUMSETID_Standard, 1, 2⟩]⟩
      zeroMedium).1 = false :=
  ⟨(getPinMedium_first_non_sentinel
      ⟨0, none, none, none, CategoryResult.eNoInterface, none,
        some [⟨GUID_NULL, 0, 0⟩, ⟨KSMEDIUMSETID_Standard, 1, 2⟩, ⟨2, 8, 9⟩]⟩
      zeroMedium ⟨2, 8, 9⟩
      [⟨GUID_NULL, 0, 0⟩, ⟨KSMEDIUMSETID_Standard, 1, 2⟩, ⟨2, 8, 9⟩] rfl).1
      (by decide),
   (getPinMedium_first_non_sentinel
      ⟨0, none, none, none, CategoryResult.eNoInterface, none,
        some [⟨GUID_NULL, 0, 0⟩, ⟨KSMEDIUMSETID_Standard, 1, 2⟩, ⟨2, 8, 9⟩]⟩
      zeroMedium ⟨2, 8, 9⟩
      [⟨GUID_NULL, 0, 0⟩, ⟨KSMEDIUMSETID_Standard, 1, 2⟩, ⟨2, 8, 9⟩] rfl).2.2
      ⟨2, 8, 9⟩ (by decide) (by decide) (by decide),
   (getPinMedium_first_non_sentinel
      ⟨1, none, none, none, CategoryResult.eNoInterface, none,
        some [⟨GUID_NULL, 0, 0⟩, ⟨KSMEDIUMSETID_Standard, 1, 2⟩]⟩
      zeroMedium ⟨2, 8, 9⟩
      [⟨GUID_NULL, 0, 0⟩, ⟨KSMEDIUMSETID_Standard, 1, 2⟩] rfl).2.1
      (by decide)⟩

/-- C10: on failure `GetPinMedium` touches its out parameter only in the
all-sentinel case.  When the medium query itself fails (the pin is not
an `IKsPin`, or `KsQueryMediums` fails) the out parameter keeps the
caller's value; when the query succeeds but every reported entry is a
sentinel, the out parameter is zeroed and the call reports failure. -/
theorem getPinMedium_out_param_on_failure (pin : Pin) (out : REGPINMEDIUM) :
    (pin.ksMediums = none → GetPinMedium pin out = (false, out)) ∧
    (∀ items, pin.ksMediums = some items →
      (∀ x ∈ items, x.clsMedium = GUID_NULL ∨
        x.clsMedium = KSMEDIUMSETID_Standard) →
      GetPinMedium pin out = (false, zeroMedium)) := by
  constructor
  · intro h
    unfold GetPinMedium
    rw [h]
  · intro items hitems hall
    unfold GetPinMedium
    rw [hitems]
    have : scanMediums items = none := scanMediums_eq_none items hall
    simp only [this]

/-- Witness for C10: a failed query keeps the caller's medium `⟨7, 7, 7⟩`
untouched; an all-sentinel list zeroes it. -/
theorem getPinMedium_out_param_on_failure_witness :
    GetPinMedium
      ⟨0, none, none, none, CategoryResult.eNoInterface, none, none⟩
      ⟨7, 7, 7⟩ = (false, ⟨7, 7, 7⟩) ∧
    GetPinMedium
      ⟨1, none, none, none, CategoryResult.eNoInterface, none,
        some [⟨GUID_NULL, 3, 4⟩, ⟨KSMEDIUMSETID_Standard, 5, 6⟩]⟩
      ⟨7, 7, 7⟩ = (false, zeroMedium) :=
  ⟨(getPinMedium_out_param_on_failure
      ⟨0, none, none, none, CategoryResult.eNoInterface, none, none⟩
      ⟨7, 7, 7⟩).1 rfl,
   (getPinMedium_out_param_on_failure
      ⟨1, none, none, none, CategoryResult.eNoInterface, none,
        some [⟨GUID_NULL, 3, 4⟩, ⟨KSMEDIUMSETID_Standard, 5, 6⟩]⟩
      ⟨7, 7, 7⟩).2
      [⟨GUID_NULL, 3, 4⟩, ⟨KSMEDIUMSETID_Standard, 5, 6⟩] rfl (by decide)⟩

/-- C9: each pin walker, called with a null filter handle or a filter
whose pin enumeration fails, returns false and leaves the caller's out
pin variable unchanged. -/
theorem pinWalkers_fail_without_writing_out (type category : GUID)
    (dir : PIN_DIRECTION) (name : Option WString) (medium : REGPINMEDIUM)
    (fid : Nat) (out : Option Pin) :
    GetFilterPin none type category dir out = (false, out) ∧
    GetFilterPin (some ⟨fid, none⟩) type category dir out = (false, out) ∧
    GetPinByName none dir name out = (false, out) ∧
    GetPinByName (some ⟨fid, none⟩) dir name out = (false, out) ∧
    GetPinByMedium none medium out = (false, out) ∧
    GetPinByMedium (some ⟨fid, none⟩) medium out = (false, out) :=
  ⟨rfl, rfl, rfl, rfl, rfl, rfl⟩

end DShow

namespace DShow

/-- The pin walk returns the first matching pin of the enumeration. -/
theorem findMatchingPin_append (pre : List Pin) (p : Pin) (post : List Pin)
    (type category : GUID) (dir : PIN_DIRECTION)
    (hpre : ∀ q ∈ pre, PinMatches q type category dir = false)
    (hp : PinMatches p type category dir = true) :
    findMatchingPin (pre ++ p :: post) type category dir = some p := by
  induction pre with
  | nil => rw [List.nil_append, findMatchingPin, if_pos hp]
  | cons a rest ih =>
    have ha := hpre a (List.mem_cons_self a rest)
    rw [List.cons_append, findMatchingPin]
    simp only [ha, Bool.false_eq_true, if_false]
    exact ih fun q hq => hpre q (List.mem_cons_of_mem a hq)

/-- When no pin matches, the pin walk is exhausted without a result. -/
theorem findMatchingPin_eq_none (pins : List Pin) (type category : GUID)
    (dir : PIN_DIRECTION)
    (h : ∀ p ∈ pins, PinMatches p type category dir = false) :
    findMatchingPin pins type category dir = none := by
  induction pins with
  | nil => rfl
  | cons a rest ih =>
    have ha := h a (List.mem_cons_self a rest)
    rw [findMatchingPin]
    simp only [ha, Bool.false_eq_true, if_false]
    exact ih fun q hq => h q (List.mem_cons_of_mem a hq)

/-- An input-direction pin never satisfies `PinMatches` for the output
direction, whatever its type and category. -/
theorem pinMatches_output_of_input (p : Pin) (type category : GUID)
    (hdir : p.direction = some PIN_DIRECTION.input) :
    PinMatches p type category PIN_DIRECTION.output = false := by
  cases hT : PinHasMajorType p type <;>
    simp [PinMatches, PinIsDirection, hdir, hT]

/-- C8: on a filter whose pin enumeration yields `pins`, `GetFilterPin`
returns the first pin satisfying the conjunction of major-type,
direction and category predicates; it returns false (out parameter
unchanged) when no pin satisfies all three — in particular when every
pin has input direction and output direction was requested, even if
some pin has the requested major type. -/
theorem getFilterPin_first_match (fid : Nat) (pins : List Pin)
    (type category : GUID) (dir : PIN_DIRECTION) (out : Option Pin) :
    (∀ pre p post, pins = pre ++ p :: post →
      (∀ q ∈ pre, PinMatches q type category dir = false) →
      PinMatches p type category dir = true →
      GetFilterPin (some ⟨fid, some pins⟩) type category dir out
        = (true, some p)) ∧
    ((∀ p ∈ pins, PinMatches p type category dir = false) →
      GetFilterPin (some ⟨fid, some pins⟩) type category dir out
        = (false, out)) ∧
    ((∀ p ∈ pins, p.direction = some PIN_DIRECTION.input) →
      GetFilterPin (some ⟨fid, some pins⟩) type category
        PIN_DIRECTION.output out = (false, out)) := by
  have hGF : ∀ d, GetFilterPin (some ⟨fid, some pins⟩) type category d out =
      (match findMatchingPin pins type category d with
       | some curPin => (true, some curPin)
       | none => (false, out)) := fun d => rfl
  refine ⟨?_, ?_, ?_⟩
  · intro pre p post hsplit hpre hp
    rw [hGF dir, hsplit, findMatchingPin_append pre p post type category dir
      hpre hp]
  · intro hall
    rw [hGF dir, findMatchingPin_eq_none pins type category dir hall]
  · intro hdir
    rw [hGF PIN_DIRECTION.output, findMatchingPin_eq_none pins type category
      PIN_DIRECTION.output
      (fun p hp => pinMatches_output_of_input p type category (hdir p hp))]

/-- Witness for C8: the walk skips a non-matching pin and returns the
matching one; an all-input pin list with the requested major type
yields not-found for output direction. -/
theorem getFilterPin_first_match_witness :
    GetFilterPin (some ⟨0, some [samplePinNoMatch, samplePinMatch]⟩) 5 9
      PIN_DIRECTION.output none = (true, some samplePinMatch) ∧
    GetFilterPin (some ⟨0, some [samplePinNoMatch]⟩) 5 9
      PIN_DIRECTION.output none = (false, none) ∧
    GetFilterPin (some ⟨0, some [samplePinInput]⟩) 5 9
      PIN_DIRECTION.output none = (false, none) :=
  ⟨(getFilterPin_first_match 0 [samplePinNoMatch, samplePinMatch] 5 9
      PIN_DIRECTION.output none).1 [samplePinNoMatch] samplePinMatch [] rfl
      (by decide) (by decide),
   (getFilterPin_first_match 0 [samplePinNoMatch] 5 9
      PIN_DIRECTION.output none).2.1 (by decide),
   (getFilterPin_first_match 0 [samplePinInput] 5 9
      PIN_DIRECTION.output none).2.2 (by decide)⟩

/-- A non-matching moniker (failed instantiation, or no pin with the
medium) leaves the out parameter and the traversal untouched. -/
theorem getFilterByMediumFromMoniker_no_match (moniker : Moniker)
    (medium : REGPINMEDIUM) (out : Option Filter)
    (h : MonikerMatches moniker medium = false) :
    GetFilterByMediumFromMoniker moniker medium out = (false, out) := by
  unfold MonikerMatches at h
  cases hb : moniker.bound with
  | none => simp [GetFilterByMediumFromMoniker, hb]
  | some f =>
    rw [hb] at h
    have h' : (GetPinByMedium (some f) medium none).1 = false := h
    simp [GetFilterByMediumFromMoniker, hb, h']

/-- Skipping a single non-matching moniker at the head of the loop. -/
theorem findFilterByMedium_cons_no_match (a : Moniker) (rest : List Moniker)
    (medium : REGPINMEDIUM) (out : Option Filter)
    (ha : MonikerMatches a medium = false) :
    findFilterByMedium (a :: rest) medium out
      = findFilterByMedium rest medium out := by
  rw [findFilterByMedium, getFilterByMediumFromMoniker_no_match a medium out ha]
  rfl

/-- Skipping any prefix of non-matching monikers. -/
theorem findFilterByMedium_append (pre rest : List Moniker)
    (medium : REGPINMEDIUM) (out : Option Filter)
    (hpre : ∀ m ∈ pre, MonikerMatches m medium = false) :
    findFilterByMedium (pre ++ rest) medium out
      = findFilterByMedium rest medium out := by
  induction pre with
  | nil => rfl
  | cons a pre ih =>
    rw [List.cons_append,
      findFilterByMedium_cons_no_match a (pre ++ rest) medium out
        (hpre a (List.mem_cons_self a pre))]
    exact ih fun m hm => hpre m (List.mem_cons_of_mem a hm)

/-- A moniker that instantiates to a filter with a matching pin makes the
loop return that filter at once. -/
theorem findFilterByMedium_cons_match (moniker : Moniker) (f : Filter)
    (rest : List Moniker) (medium : REGPINMEDIUM) (out : Option Filter)
    (hb : moniker.bound = some f)
    (hm : (GetPinByMedium (some f) medium none).1 = true) :
    findFilterByMedium (moniker :: rest) medium out = (true, some f) := by
  have hstep : GetFilterByMediumFromMoniker moniker medium out
      = (true, some f) := by
    unfold GetFilterByMediumFromMoniker
    rw [hb]
    simp [hm]
  rw [findFilterByMedium, hstep]
  rfl

/-- When no moniker matches, the loop exhausts all candidates and fails
with the out parameter untouched. -/
theorem findFilterByMedium_all_no_match (ms : List Moniker)
    (medium : REGPINMEDIUM) (out : Option Filter)
    (h : ∀ m ∈ ms, MonikerMatches m medium = false) :
    findFilterByMedium ms medium out = (false, out) := by
  induction ms with
  | nil => rfl
  | cons a rest ih =>
    rw [findFilterByMedium_cons_no_match a rest medium out
      (h a (List.mem_cons_self a rest))]
    exact ih fun m hm => h m (List.mem_cons_of_mem a hm)

/-- C7: in `GetFilterByMedium`, a failed (or non-matching) candidate
never aborts the traversal: after any prefix of candidates that fail
to instantiate or have no matching pin, a candidate that instantiates
to a filter exposing a pin with the target medium is returned; and
not-found (out parameter untouched) arises only after every candidate
was visited without a match. -/
theorem getFilterByMedium_skips_failed_candidates (ms pre post : List Moniker)
    (moniker : Moniker) (f : Filter) (medium : REGPINMEDIUM)
    (out : Option Filter) :
    ((∀ m ∈ pre, MonikerMatches m medium = false) →
      moniker.bound = some f →
      (GetPinByMedium (some f) medium none).1 = true →
      GetFilterByMedium (ClassEnumResult.monikers (pre ++ moniker :: post))
        medium out = (true, some f)) ∧
    ((∀ m ∈ ms, MonikerMatches m medium = false) →
      GetFilterByMedium (ClassEnumResult.monikers ms) medium out
        = (false, out)) := by
  constructor
  · intro hpre hb hmatch
    show findFilterByMedium (pre ++ moniker :: post) medium out = (true, some f)
    rw [findFilterByMedium_append pre (moniker :: post) medium out hpre,
      findFilterByMedium_cons_match moniker f post medium out hb hmatch]
  · intro hall
    exact findFilterByMedium_all_no_match ms medium out hall

/-- Witness for C7: with a first moniker that fails to instantiate and a
second that instantiates to `sampleMediumFilter` (whose pin carries
medium `⟨2, 8, 9⟩`), the matching filter is still found; and the
failing moniker alone yields not-found. -/
theorem getFilterByMedium_skips_failed_candidates_witness :
    GetFilterByMedium
      (ClassEnumResult.monikers [⟨none⟩, ⟨some sampleMediumFilter⟩])
      ⟨2, 8, 9⟩ none = (true, some sampleMediumFilter) ∧
    GetFilterByMedium (ClassEnumResult.monikers [⟨none⟩]) ⟨2, 8, 9⟩ none
      = (false, none) :=
  ⟨(getFilterByMedium_skips_failed_candidates [⟨none⟩] [⟨none⟩] []
      ⟨some sampleMediumFilter⟩ sampleMediumFilter ⟨2, 8, 9⟩ none).1
      (by decide) rfl (by decide),
   (getFilterByMedium_skips_failed_candidates [⟨none⟩] [] []
      ⟨none⟩ sampleMediumFilter ⟨2, 8, 9⟩ none).2 (by decide)⟩

/-- The enumeration loop computes the resolver specification: starting
from tentative result `acc`, the final recorded filter is the
specification's answer, falling back to `acc` when no candidate
matched the name. -/
theorem enumDevices_filter_eq (candidates : List DeviceCandidate)
    (n p : Option WString) (acc : Option Filter) :
    (EnumDevices candidates ⟨acc, n, p⟩).filter =
      (match ResolveDeviceFilterSpec candidates n p with
       | some f => some f
       | none => acc) := by
  induction candidates generalizing acc with
  | nil => rfl
  | cons c rest ih =>
    by_cases hname : CandidateNameMatches n c = true
    · have hskip : (match (⟨acc, n, p⟩ : DeviceFilterCallbackInfo).name with
          | some infoName => c.name != infoName
          | none => false) = false := by
        cases n with
        | none => rfl
        | some nm =>
          have hn : c.name = nm := by
            simpa [CandidateNameMatches] using hname
          simp [hn]
      by_cases hfull : CandidateFullMatches n p c = true
      · have hstop : GetDeviceCallback ⟨acc, n, p⟩ c.filter c.name c.path
            = (⟨some c.filter, n, p⟩, false) := by
          obtain ⟨cp, ip, hcp, hip, heq⟩ :
              ∃ cp ip, c.path = some cp ∧ p = some ip ∧ cp = ip := by
            unfold CandidateFullMatches at hfull
            rcases hcpath : c.path with _ | cp <;>
              rcases hp : p with _ | ip <;>
              rw [hcpath, hp] at hfull <;> simp at hfull
            exact ⟨cp, ip, rfl, rfl, hfull.2⟩
          unfold GetDeviceCallback
          rw [hskip]
          simp [hcp, hip, heq]
        rw [EnumDevices, hstop, ResolveDeviceFilterSpec, if_pos hfull]
        rfl
      · have hcont : GetDeviceCallback ⟨acc, n, p⟩ c.filter c.name c.path
            = (⟨some c.filter, n, p⟩, true) := by
          unfold GetDeviceCallback
          rw [hskip]
          unfold CandidateFullMatches at hfull
          rcases hcpath : c.path with _ | cp
          · simp [hcpath]
          · rcases hp : p with _ | ip
            · simp [hcpath, hp]
            · rw [hcpath, hp] at hfull
              have hne : cp ≠ ip := by
                intro hx
                exact hfull (by simp [hname, hx])
              simp [hcpath, hp, hne]
        rw [EnumDevices, hcont]
        show (EnumDevices rest ⟨some c.filter, n, p⟩).filter =
          (match ResolveDeviceFilterSpec (c :: rest) n p with
           | some f => some f
           | none => acc)
        simp only [Bool.not_eq_true] at hfull
        rw [ih (some c.filter), ResolveDeviceFilterSpec]
        simp only [hfull, Bool.false_eq_true, if_false, hname, if_true]
        cases hR : ResolveDeviceFilterSpec rest n p <;> simp [hR]
    · have hn : ∃ nm, n = some nm ∧ c.name ≠ nm := by
        cases n with
        | none => exact absurd (by simp [CandidateNameMatches]) hname
        | some nm =>
          refine ⟨nm, rfl, ?_⟩
          simpa [CandidateNameMatches] using hname
      obtain ⟨nm, rfl, hne⟩ := hn
      have hskip : GetDeviceCallback ⟨acc, some nm, p⟩ c.filter c.name c.path
          = (⟨acc, some nm, p⟩, true) := by
        unfold GetDeviceCallback
        simp [hne]
      rw [EnumDevices, hskip]
      show (EnumDevices rest ⟨acc, some nm, p⟩).filter =
        (match ResolveDeviceFilterSpec (c :: rest) (some nm) p with
         | some f => some f
         | none => acc)
      have hnm : CandidateNameMatches (some nm) c = false := by
        simp [CandidateNameMatches, hne]
      have hfull : CandidateFullMatches (some nm) p c = false := by
        unfold CandidateFullMatches
        simp [hnm]
      rw [ih acc, ResolveDeviceFilterSpec]
      simp only [hfull, hnm, Bool.false_eq_true, if_false]

/-- Counterexample to C1 as stated: name criterion "Cam1" set, path
criterion unset, two candidates both named "Cam1" with distinct
filters.  The first candidate matches the set name while the path
criterion is unset, yet the traversal does not stop there: the
returned filter is the second candidate's, not the first's. -/
theorem getDeviceFilter_no_stop_on_unset_path :
    CandidateNameMatches (some "Cam1") ⟨⟨1, none⟩, "Cam1", some "A"⟩ = true ∧
    GetDeviceFilter
      [⟨⟨1, none⟩, "Cam1", some "A"⟩, ⟨⟨2, none⟩, "Cam1", some "B"⟩]
      (some "Cam1") none = some ⟨2, none⟩ ∧
    (⟨2, none⟩ : Filter) ≠ ⟨1, none⟩ := by
  refine ⟨by decide, by decide, by decide⟩

/-- C1 (amended): with a set device name, the traversal stops early only
at a candidate matching both the set name and a set path criterion
(with a non-null candidate path); a candidate matching only the name
is recorded and the traversal continues, so the resolver returns the
first candidate matching both set name and set path when one exists,
otherwise the last candidate whose name matched, and not-found only
when no candidate's name matched at all — the behaviour of
`ResolveDeviceFilterSpec`. -/
theorem getDeviceFilter_eq_resolveSpec (candidates : List DeviceCandidate)
    (name path : Option WString) :
    GetDeviceFilter candidates name path
      = ResolveDeviceFilterSpec candidates name path := by
  show (EnumDevices candidates ⟨none, name, path⟩).filter = _
  rw [enumDevices_filter_eq]
  cases ResolveDeviceFilterSpec candidates name path <;> rfl

/-- The resolver specification returns the first full match, past any
prefix free of full matches. -/
theorem resolveSpec_full_match (pre : List DeviceCandidate)
    (c : DeviceCandidate) (post : List DeviceCandidate) (n p : WString)
    (hpre : ∀ d ∈ pre, CandidateFullMatches (some n) (some p) d = false)
    (hc : CandidateFullMatches (some n) (some p) c = true) :
    ResolveDeviceFilterSpec (pre ++ c :: post) (some n) (some p)
      = some c.filter := by
  induction pre with
  | nil => rw [List.nil_append, ResolveDeviceFilterSpec, if_pos hc]
  | cons d pre ih =>
    have hd := hpre d (List.mem_cons_self d pre)
    have hrec := ih fun d' hd' => hpre d' (List.mem_cons_of_mem d hd')
    rw [List.cons_append, ResolveDeviceFilterSpec]
    simp only [hd, Bool.false_eq_true, if_false, hrec]
    by_cases hdn : CandidateNameMatches (some n) d = true
    · simp only [hdn, if_true]
    · simp only [Bool.not_eq_true] at hdn
      simp only [hdn, Bool.false_eq_true, if_false]

/-- C2: when the name and path criteria are both set and a candidate
matches both, the first such candidate's filter is returned — not an
earlier candidate that matched only the name. -/
theorem getDeviceFilter_full_match_preferred (pre : List DeviceCandidate)
    (c : DeviceCandidate) (post : List DeviceCandidate) (n p : WString)
    (hpre : ∀ d ∈ pre, CandidateFullMatches (some n) (some p) d = false)
    (hc : CandidateFullMatches (some n) (some p) c = true) :
    GetDeviceFilter (pre ++ c :: post) (some n) (some p) = some c.filter := by
  show (EnumDevices (pre ++ c :: post) ⟨none, some n, some p⟩).filter = _
  rw [enumDevices_filter_eq, resolveSpec_full_match pre c post n p hpre hc]

/-- Witness for C2: name "Cam1", path "B", candidates ("Cam1","A") then
("Cam1","B") — the ("Cam1","B") candidate's filter is returned. -/
theorem getDeviceFilter_full_match_preferred_witness :
    GetDeviceFilter
      [⟨⟨1, none⟩, "Cam1", some "A"⟩, ⟨⟨2, none⟩, "Cam1", some "B"⟩]
      (some "Cam1") (some "B") = some ⟨2, none⟩ :=
  getDeviceFilter_full_match_preferred [⟨⟨1, none⟩, "Cam1", some "A"⟩]
    ⟨⟨2, none⟩, "Cam1", some "B"⟩ [] "Cam1" "B" (by decide) (by decide)

end DShow
